import Mathlib

/-!
# Star mesh generator and shader wrapper (`Lab 2/ComputerGrah1/main.cpp`)

A shallow embedding of `generateStar` and of the `Shader` class, with the
properties of the written specification stated over it.

Single-precision arithmetic is kept abstract: `generateStar` is written over an
arbitrary carrier `F` together with the operations the source applies to
`float` values (`FloatOps`).  Every structural property is proved for every
interpretation of those operations.  Two interpretations are singled out: the
exact real one (`ExactReal`), an idealisation in which nothing is rounded, and
the binary32 one (`binary32`), in which every operation is rounded to nearest.
-/

namespace ComputerGrah

/-! ## Arithmetic used by `generateStar` -/

/-- The operations `generateStar` applies to `float` values: decimal literals
with an `f` suffix, the conversion `float(i)` of an `int`, `+`, `*`, `/`,
`cosf` and `sinf`. -/
structure FloatOps (F : Type) where
  lit : ℚ → F
  ofInt : Int → F
  add : F → F → F
  mul : F → F → F
  div : F → F → F
  cosf : F → F
  sinf : F → F

/-- Symbolic `float` expressions: the free interpretation of `FloatOps`, in
which every operation builds a term. -/
inductive FTerm where
  | var : String → FTerm
  | lit : ℚ → FTerm
  | ofInt : Int → FTerm
  | add : FTerm → FTerm → FTerm
  | mul : FTerm → FTerm → FTerm
  | div : FTerm → FTerm → FTerm
  | cosf : FTerm → FTerm
  | sinf : FTerm → FTerm
  deriving DecidableEq, Repr

/-- The symbolic interpretation. -/
def symbolic : FloatOps FTerm :=
  ⟨FTerm.lit, FTerm.ofInt, FTerm.add, FTerm.mul, FTerm.div, FTerm.cosf, FTerm.sinf⟩

/-- The local `int numPoints = 8`. -/
def numPoints : Nat := 8

/-- The two output vectors of `generateStar`: `vertices` and `indices`. -/
abbrev Buffers (F : Type) := List F × List Nat

/-- Body of the `for` loop of `generateStar` at loop counter `i` (lines 88-100):
three `push_back`s on `vertices`, and for `i > 0` three on `indices`.  The
counter only takes the values `0..7`, so `int` and `unsigned int` values are
natural numbers here. -/
def starStep {F : Type} (ops : FloatOps F) (cx cy outerRadius innerRadius : F)
    (b : Buffers F) (i : Nat) : Buffers F :=
  let angle := ops.div
    (ops.mul (ops.mul (ops.lit 2.0) (ops.lit 3.1415926)) (ops.ofInt (i : Int)))
    (ops.ofInt (numPoints : Int))
  let radius := if i % 2 == 0 then outerRadius else innerRadius
  let x := ops.mul radius (ops.cosf angle)
  let y := ops.mul radius (ops.sinf angle)
  let vertices := b.1 ++ [ops.add cx x, ops.add cy y, ops.lit 0.0]
  let indices := if i > 0 then b.2 ++ [0, i, i + 1] else b.2
  (vertices, indices)

/-- The function `generateStar(cx, cy, outerRadius, innerRadius, vertices, indices)`:
the two vectors are passed by reference and returned here as a pair. -/
def generateStar {F : Type} (ops : FloatOps F) (cx cy outerRadius innerRadius : F)
    (vertices : List F) (indices : List Nat) : Buffers F :=
  let b0 : Buffers F := (vertices ++ [cx, cy, ops.lit 0.0], indices)
  let b1 := (List.range numPoints).foldl (starStep ops cx cy outerRadius innerRadius) b0
  (b1.1, b1.2 ++ [0, numPoints, 1])

/-- The `k`-th vertex (zero-based) of a flattened vertex sequence, as its three
consecutive floats. -/
def vertexAt {F : Type} (vs : List F) (k : Nat) : List F :=
  (vs.drop (3 * k)).take 3

/-- The `k`-th triangle (zero-based) of a flattened index sequence. -/
def triangleAt (is : List Nat) (k : Nat) : List Nat :=
  (is.drop (3 * k)).take 3

/-! ## The `Shader` class -/

/-- The enumerants of the graphics API that `Shader` passes. -/
inductive GLenum where
  | GL_VERTEX_SHADER
  | GL_FRAGMENT_SHADER
  | GL_COMPILE_STATUS
  | GL_LINK_STATUS
  deriving DecidableEq, Repr

/-- The text `s.c_str()` hands to a callee that reads a NUL-terminated string:
the characters of `s` before its first NUL character. -/
def cStr (s : String) : String :=
  String.mk (s.data.takeWhile (fun c => c != Char.ofNat 0))

/-- The entry points of the graphics API called by the constructor of `Shader`,
over a driver state `σ`.  Object names (`GLuint`) are natural numbers, status
values (`GLint`) are integers; every call returns the next driver state. -/
structure ShaderApi (σ : Type) where
  glCreateShader : σ → GLenum → σ × Nat
  glShaderSource : σ → Nat → String → σ
  glCompileShader : σ → Nat → σ
  glGetShaderiv : σ → Nat → GLenum → σ × Int
  glGetShaderInfoLog : σ → Nat → Nat → σ × String
  glCreateProgram : σ → σ × Nat
  glAttachShader : σ → Nat → Nat → σ
  glLinkProgram : σ → Nat → σ
  glGetProgramiv : σ → Nat → GLenum → σ × Int
  glGetProgramInfoLog : σ → Nat → Nat → σ × String
  glDeleteShader : σ → Nat → σ

/-- The entry points of the graphics API called by `use` and `setUniform4f`. -/
structure UniformApi (σ : Type) (F : Type) where
  glUseProgram : σ → Nat → σ
  glGetUniformLocation : σ → Nat → String → σ × Int
  glUniform4f : σ → Int → F → F → F → F → σ

/-- What the constructor acts on besides its own object: the driver state and
the text written to `std::cerr`, one entry for each output statement ended by
`std::endl`. -/
structure World (σ : Type) where
  gl : σ
  cerr : List String

/-- The class `Shader`: its only data member is `GLuint program`. -/
structure Shader where
  program : Nat
  deriving DecidableEq, Repr

/-- The member `Shader::loadShaderFromFile`.  `fs path` is the text of the file
at `path` when `std::ifstream` can open it, and `none` when it cannot. -/
def Shader.loadShaderFromFile {σ : Type} (fs : String → Option String) (w : World σ)
    (path : String) : String × World σ :=
  match fs path with
  | none => ("", { w with cerr := w.cerr ++ ["Failed to open shader file: " ++ path] })
  | some text => (text, w)

/-- The member `Shader::checkCompileErrors`; the info log buffer holds 1024
characters. -/
def Shader.checkCompileErrors {σ : Type} (api : ShaderApi σ) (w : World σ)
    (shader : Nat) (type : String) : World σ :=
  if type != "PROGRAM" then
    let (gl1, success) := api.glGetShaderiv w.gl shader GLenum.GL_COMPILE_STATUS
    if success == 0 then
      let (gl2, infoLog) := api.glGetShaderInfoLog gl1 shader 1024
      { gl := gl2,
        cerr := w.cerr ++
          ["ERROR::SHADER_COMPILATION_ERROR of type: " ++ type ++ "\n" ++ infoLog] }
    else
      { w with gl := gl1 }
  else
    let (gl1, success) := api.glGetProgramiv w.gl shader GLenum.GL_LINK_STATUS
    if success == 0 then
      let (gl2, infoLog) := api.glGetProgramInfoLog gl1 shader 1024
      { gl := gl2,
        cerr := w.cerr ++
          ["ERROR::PROGRAM_LINKING_ERROR of type: " ++ type ++ "\n" ++ infoLog] }
    else
      { w with gl := gl1 }

/-- The member `Shader::compileShader`. -/
def Shader.compileShader {σ : Type} (api : ShaderApi σ) (w : World σ)
    (shaderCode : String) (shaderType : GLenum) : Nat × World σ :=
  let (gl1, shader) := api.glCreateShader w.gl shaderType
  let gl2 := api.glShaderSource gl1 shader shaderCode
  let gl3 := api.glCompileShader gl2 shader
  let w1 := Shader.checkCompileErrors api { w with gl := gl3 } shader
    (if shaderType == GLenum.GL_VERTEX_SHADER then "VERTEX" else "FRAGMENT")
  (shader, w1)

/-- The constructor `Shader::Shader(vertexPath, fragmentPath)`, named `construct`
as the type itself is `Shader`: it returns the constructed object and the world
it leaves. -/
def Shader.construct {σ : Type} (api : ShaderApi σ) (fs : String → Option String)
    (w : World σ) (vertexPath fragmentPath : String) : Shader × World σ :=
  let (vertexCode, w1) := Shader.loadShaderFromFile fs w vertexPath
  let (vertexShader, w2) :=
    Shader.compileShader api w1 (cStr vertexCode) GLenum.GL_VERTEX_SHADER
  let (fragmentCode, w3) := Shader.loadShaderFromFile fs w2 fragmentPath
  let (fragmentShader, w4) :=
    Shader.compileShader api w3 (cStr fragmentCode) GLenum.GL_FRAGMENT_SHADER
  let (gl5, program) := api.glCreateProgram w4.gl
  let gl6 := api.glAttachShader gl5 program vertexShader
  let gl7 := api.glAttachShader gl6 program fragmentShader
  let gl8 := api.glLinkProgram gl7 program
  let w9 := Shader.checkCompileErrors api { w4 with gl := gl8 } program "PROGRAM"
  let gl10 := api.glDeleteShader w9.gl vertexShader
  let gl11 := api.glDeleteShader gl10 fragmentShader
  ({ program := program }, { w9 with gl := gl11 })

/-- The member `Shader::use`. -/
def Shader.use {σ F : Type} (api : UniformApi σ F) (self : Shader) (gl : σ) : σ :=
  api.glUseProgram gl self.program

/-- The member `Shader::setUniform4f`. -/
def Shader.setUniform4f {σ F : Type} (api : UniformApi σ F) (self : Shader) (gl : σ)
    (name : String) (v0 v1 v2 v3 : F) : σ :=
  let (gl1, location) := api.glGetUniformLocation gl self.program (cStr name)
  api.glUniform4f gl1 location v0 v1 v2 v3

/-! ### A driver that records the calls it receives -/

/-- One call of the constructor into the graphics API, with its arguments. -/
inductive GLCall where
  | glCreateShader (type : GLenum)
  | glShaderSource (shader : Nat) (source : String)
  | glCompileShader (shader : Nat)
  | glGetShaderiv (shader : Nat) (pname : GLenum)
  | glGetShaderInfoLog (shader : Nat) (maxLength : Nat)
  | glCreateProgram
  | glAttachShader (program shader : Nat)
  | glLinkProgram (program : Nat)
  | glGetProgramiv (program : Nat) (pname : GLenum)
  | glGetProgramInfoLog (program : Nat) (maxLength : Nat)
  | glDeleteShader (shader : Nat)
  deriving DecidableEq, Repr

/-- The answers of an arbitrary deterministic driver, as functions of the calls
it has received so far: the object name a creation call returns, the status a
status query stores, the text an info-log query stores. -/
structure Driver where
  handle : List GLCall → Nat
  status : List GLCall → Int
  infoLog : List GLCall → String

/-- The graphics API over the list of calls received: each entry point appends
its call and answers as the driver `d` does. -/
def recording (d : Driver) : ShaderApi (List GLCall) where
  glCreateShader h t := (h ++ [.glCreateShader t], d.handle (h ++ [.glCreateShader t]))
  glShaderSource h s src := h ++ [.glShaderSource s src]
  glCompileShader h s := h ++ [.glCompileShader s]
  glGetShaderiv h s pname :=
    (h ++ [.glGetShaderiv s pname], d.status (h ++ [.glGetShaderiv s pname]))
  glGetShaderInfoLog h s n :=
    (h ++ [.glGetShaderInfoLog s n], d.infoLog (h ++ [.glGetShaderInfoLog s n]))
  glCreateProgram h := (h ++ [.glCreateProgram], d.handle (h ++ [.glCreateProgram]))
  glAttachShader h p s := h ++ [.glAttachShader p s]
  glLinkProgram h p := h ++ [.glLinkProgram p]
  glGetProgramiv h p pname :=
    (h ++ [.glGetProgramiv p pname], d.status (h ++ [.glGetProgramiv p pname]))
  glGetProgramInfoLog h p n :=
    (h ++ [.glGetProgramInfoLog p n], d.infoLog (h ++ [.glGetProgramInfoLog p n]))
  glDeleteShader h s := h ++ [.glDeleteShader s]

/-- The four calls `compileShader` makes for a stage of type `ty` whose object
is named `s`: create, set the source, compile, read the compile status. -/
def stageCalls (ty : GLenum) (s : Nat) (source : String) : List GLCall :=
  [GLCall.glCreateShader ty, GLCall.glShaderSource s source, GLCall.glCompileShader s,
   GLCall.glGetShaderiv s GLenum.GL_COMPILE_STATUS]

/-- The five calls that create the program `p`, attach the stages `v` and `f`,
link, and read the link status. -/
def linkCalls (p v f : Nat) : List GLCall :=
  [GLCall.glCreateProgram, GLCall.glAttachShader p v, GLCall.glAttachShader p f,
   GLCall.glLinkProgram p, GLCall.glGetProgramiv p GLenum.GL_LINK_STATUS]

/-- A driver that names objects by the number of calls received, reports every
status as failed and returns a fixed info log. -/
def failingDriver : Driver :=
  ⟨fun h => h.length, fun _ => 0, fun _ => "0:1: syntax error"⟩

/-- A file system in which no file can be opened. -/
def noFiles : String → Option String := fun _ => none

/-! ### The uniform store of the graphics API -/

/-- The error flag of the graphics API. -/
inductive GLError where
  | GL_NO_ERROR
  | GL_INVALID_OPERATION
  deriving DecidableEq, Repr

/-- One uniform of a linked program: its name, its location and its current
four-component value. -/
structure UniformSlot (F : Type) where
  name : String
  location : Int
  value : F × F × F × F

/-- Modelled from the spec: the part of the graphics API state that
`glUseProgram`, `glGetUniformLocation` and `glUniform4f` read and write.  These
entry points belong to the graphics library and are not in the repository; the
state holds the linked layout of every program object, the program made active,
and the error flag. -/
structure GLState (F : Type) where
  layout : Nat → List (UniformSlot F)
  current : Nat
  error : GLError

/-- Modelled from the spec: `glGetUniformLocation`, which is not in the
repository.  It looks the name up in the linked layout of the program and
yields the location found, or the sentinel "not found" location `-1`. -/
def modelGetUniformLocation {F : Type} (st : GLState F) (program : Nat) (name : String) :
    Int :=
  match (st.layout program).find? (fun u => u.name == name) with
  | some u => u.location
  | none => -1

/-- Modelled from the spec: `glUniform4f`, which is not in the repository.  A
set on the sentinel location `-1` is a silent no-op; a set on a location of the
active program updates the uniforms at that location; any other location raises
the error flag. -/
def modelUniform4f {F : Type} (st : GLState F) (location : Int) (v0 v1 v2 v3 : F) :
    GLState F :=
  if location == -1 then st
  else if (st.layout st.current).any (fun u => u.location == location) then
    { st with
      layout := fun p =>
        if p == st.current then
          (st.layout p).map
            (fun u => if u.location == location then { u with value := (v0, v1, v2, v3) } else u)
        else st.layout p }
  else { st with error := GLError.GL_INVALID_OPERATION }

/-- Modelled from the spec: the uniform entry points of the graphics API over
`GLState`; `glUseProgram` makes the program the active one. -/
def uniformModel {F : Type} : UniformApi (GLState F) F where
  glUseProgram st program := { st with current := program }
  glGetUniformLocation st program name := (st, modelGetUniformLocation st program name)
  glUniform4f := modelUniform4f

/-- A state with one program, named 3 and active, whose layout is the single
uniform `ourColor` at location 0 with value `(0, 0, 0, 1)`. -/
def oneUniformState : GLState ℚ where
  layout p := if p == 3 then [⟨"ourColor", 0, (0, 0, 0, 1)⟩] else []
  current := 3
  error := GLError.GL_NO_ERROR

/-! ## Unfolding of the loop -/

theorem lit_zero : (0.0 : ℚ) = 0 := by norm_num

theorem generateStar_indices {F : Type} (ops : FloatOps F) (cx cy o r : F)
    (V : List F) (I : List Nat) :
    (generateStar ops cx cy o r V I).2 =
      I ++ [0, 1, 2, 0, 2, 3, 0, 3, 4, 0, 4, 5, 0, 5, 6, 0, 6, 7, 0, 7, 8, 0, 8, 1] := by
  simp [generateStar, starStep, numPoints, List.range, List.range.loop]

theorem generateStar_vertices_length {F : Type} (ops : FloatOps F) (cx cy o r : F) :
    (generateStar ops cx cy o r [] []).1.length = 27 := by
  simp [generateStar, starStep, numPoints, List.range, List.range.loop]

theorem program_ne_program : ("PROGRAM" != "PROGRAM") = false := by decide

theorem load_spec {σ : Type} (fs : String → Option String) (w : World σ) (path : String) :
    (Shader.loadShaderFromFile fs w path).1 = (fs path).getD "" ∧
    (Shader.loadShaderFromFile fs w path).2.gl = w.gl ∧
    ∃ out, (Shader.loadShaderFromFile fs w path).2.cerr = w.cerr ++ out ∧
      (fs path = none → out = ["Failed to open shader file: " ++ path]) := by
  unfold Shader.loadShaderFromFile
  cases h : fs path with
  | none => exact ⟨rfl, rfl, _, rfl, fun _ => rfl⟩
  | some text => exact ⟨rfl, rfl, [], by simp, fun h => by cases h⟩

theorem check_recording (d : Driver) (w : World (List GLCall)) (obj : Nat) (type : String) :
    ∃ (extra : List GLCall) (errs : List String),
      (Shader.checkCompileErrors (recording d) w obj type).gl =
        w.gl ++ [if type != "PROGRAM" then GLCall.glGetShaderiv obj GLenum.GL_COMPILE_STATUS
                 else GLCall.glGetProgramiv obj GLenum.GL_LINK_STATUS] ++ extra ∧
      (extra = [] ∨
        extra = [if type != "PROGRAM" then GLCall.glGetShaderInfoLog obj 1024
                 else GLCall.glGetProgramInfoLog obj 1024]) ∧
      (Shader.checkCompileErrors (recording d) w obj type).cerr = w.cerr ++ errs := by
  unfold Shader.checkCompileErrors
  simp only [recording]
  split_ifs <;>
    first
    | exact ⟨_, _, rfl, Or.inr rfl, rfl⟩
    | exact ⟨[], [], by simp, Or.inl rfl, by simp⟩

theorem compile_recording (d : Driver) (w : World (List GLCall)) (code : String)
    (ty : GLenum) :
    (Shader.compileShader (recording d) w code ty).1 =
      d.handle (w.gl ++ [GLCall.glCreateShader ty]) ∧
    ∃ (extra : List GLCall) (errs : List String),
      (Shader.compileShader (recording d) w code ty).2.gl =
        w.gl ++ stageCalls ty (Shader.compileShader (recording d) w code ty).1 code
          ++ extra ∧
      (extra = [] ∨ extra =
        [GLCall.glGetShaderInfoLog (Shader.compileShader (recording d) w code ty).1 1024]) ∧
      (Shader.compileShader (recording d) w code ty).2.cerr = w.cerr ++ errs := by
  have hty : ((if ty == GLenum.GL_VERTEX_SHADER then "VERTEX" else "FRAGMENT") != "PROGRAM")
      = true := by
    split_ifs <;> decide
  unfold Shader.compileShader
  simp only
  obtain ⟨extra, errs, h1, h2, h3⟩ := check_recording d
    (World.mk ((recording d).glCompileShader
      ((recording d).glShaderSource ((recording d).glCreateShader w.gl ty).1
        ((recording d).glCreateShader w.gl ty).2 code)
      ((recording d).glCreateShader w.gl ty).2) w.cerr)
    ((recording d).glCreateShader w.gl ty).2
    (if ty == GLenum.GL_VERTEX_SHADER then "VERTEX" else "FRAGMENT")
  rw [hty] at h1 h2
  refine ⟨rfl, extra, errs, ?_, ?_, ?_⟩
  · rw [h1]
    simp [recording, stageCalls]
  · simpa using h2
  · rw [h3]

theorem construct_recording (d : Driver) (fs : String → Option String)
    (w : World (List GLCall)) (vertexPath fragmentPath : String) :
    ∃ (v f p : Nat) (x2 x4 x9 : List GLCall) (rest : List String),
      v = d.handle (w.gl ++ [GLCall.glCreateShader GLenum.GL_VERTEX_SHADER]) ∧
      f = d.handle (w.gl ++ stageCalls GLenum.GL_VERTEX_SHADER v
            (cStr ((fs vertexPath).getD "")) ++ x2
          ++ [GLCall.glCreateShader GLenum.GL_FRAGMENT_SHADER]) ∧
      p = d.handle (w.gl ++ stageCalls GLenum.GL_VERTEX_SHADER v
            (cStr ((fs vertexPath).getD "")) ++ x2
          ++ stageCalls GLenum.GL_FRAGMENT_SHADER f (cStr ((fs fragmentPath).getD "")) ++ x4
          ++ [GLCall.glCreateProgram]) ∧
      (x2 = [] ∨ x2 = [GLCall.glGetShaderInfoLog v 1024]) ∧
      (x4 = [] ∨ x4 = [GLCall.glGetShaderInfoLog f 1024]) ∧
      (x9 = [] ∨ x9 = [GLCall.glGetProgramInfoLog p 1024]) ∧
      (Shader.construct (recording d) fs w vertexPath fragmentPath).2.gl =
        w.gl ++ stageCalls GLenum.GL_VERTEX_SHADER v (cStr ((fs vertexPath).getD "")) ++ x2
          ++ stageCalls GLenum.GL_FRAGMENT_SHADER f (cStr ((fs fragmentPath).getD "")) ++ x4
          ++ linkCalls p v f ++ x9
          ++ [GLCall.glDeleteShader v, GLCall.glDeleteShader f] ∧
      (Shader.construct (recording d) fs w vertexPath fragmentPath).1.program = p ∧
      (Shader.construct (recording d) fs w vertexPath fragmentPath).2.cerr = w.cerr ++ rest ∧
      (fs vertexPath = none →
        rest.head? = some ("Failed to open shader file: " ++ vertexPath)) ∧
      (fs fragmentPath = none →
        "Failed to open shader file: " ++ fragmentPath ∈ rest) := by
  unfold Shader.construct
  simp only
  have h1 := load_spec fs w vertexPath
  generalize Shader.loadShaderFromFile fs w vertexPath = r1 at h1 ⊢
  obtain ⟨hc1, hg1, out1, he1, ho1⟩ := h1
  have h2 := compile_recording d r1.2 (cStr r1.1) GLenum.GL_VERTEX_SHADER
  generalize Shader.compileShader (recording d) r1.2 (cStr r1.1)
    GLenum.GL_VERTEX_SHADER = r2 at h2 ⊢
  obtain ⟨hv, x2, e2, hg2, hx2, he2⟩ := h2
  have h3 := load_spec fs r2.2 fragmentPath
  generalize Shader.loadShaderFromFile fs r2.2 fragmentPath = r3 at h3 ⊢
  obtain ⟨hc3, hg3, out3, he3, ho3⟩ := h3
  have h4 := compile_recording d r3.2 (cStr r3.1) GLenum.GL_FRAGMENT_SHADER
  generalize Shader.compileShader (recording d) r3.2 (cStr r3.1)
    GLenum.GL_FRAGMENT_SHADER = r4 at h4 ⊢
  obtain ⟨hf, x4, e4, hg4, hx4, he4⟩ := h4
  obtain ⟨x9, e9, hg9, hx9, he9⟩ := check_recording d
    (World.mk ((recording d).glLinkProgram
      ((recording d).glAttachShader
        ((recording d).glAttachShader ((recording d).glCreateProgram r4.2.gl).1
          ((recording d).glCreateProgram r4.2.gl).2 r2.1)
        ((recording d).glCreateProgram r4.2.gl).2 r4.1)
      ((recording d).glCreateProgram r4.2.gl).2) r4.2.cerr)
    ((recording d).glCreateProgram r4.2.gl).2 "PROGRAM"
  rw [program_ne_program] at hg9 hx9
  rw [hg1, hc1] at hg2
  rw [hg1] at hv
  rw [hg3, hg2, hc3] at hg4
  rw [hg3, hg2] at hf
  refine ⟨r2.1, r4.1, ((recording d).glCreateProgram r4.2.gl).2, x2, x4, x9,
    out1 ++ e2 ++ out3 ++ e4 ++ e9, hv, hf, ?_, hx2, hx4, ?_, ?_, rfl, ?_, ?_, ?_⟩
  · simp only [recording, hg4]
  · simpa using hx9
  · simp only [recording, hg4] at hg9 ⊢
    rw [hg9]
    simp [linkCalls]
  · rw [he9]
    simp only [he4, he3, he2, he1, List.append_assoc]
  · intro hn
    rw [ho1 hn]
    rfl
  · intro hn
    rw [ho3 hn]
    simp

/-! ## Properties of `generateStar` -/

/-- C1: for every center and every pair of radii, `generateStar` called with
empty sequences produces exactly 27 floats, which is `3 * (numPoints + 1)`, and
exactly 24 indices, which is `3 * numPoints`, with `numPoints = 8`. -/
theorem generateStar_counts {F : Type} (ops : FloatOps F) (cx cy outerRadius innerRadius : F) :
    (generateStar ops cx cy outerRadius innerRadius [] []).1.length = 27 ∧
    (generateStar ops cx cy outerRadius innerRadius [] []).2.length = 24 ∧
    27 = 3 * (numPoints + 1) ∧ 24 = 3 * numPoints ∧ numPoints = 8 := by
  refine ⟨generateStar_vertices_length ops cx cy outerRadius innerRadius, ?_, rfl, rfl, rfl⟩
  rw [generateStar_indices]
  rfl

/-- C2: every index `generateStar` emits into empty sequences lies in `[0, 8]`,
that is, it is smaller than the number of vertices produced, which is 9. -/
theorem generateStar_indices_in_range {F : Type} (ops : FloatOps F)
    (cx cy outerRadius innerRadius : F) (k : Nat)
    (hk : k ∈ (generateStar ops cx cy outerRadius innerRadius [] []).2) :
    k ≤ 8 ∧ k < (generateStar ops cx cy outerRadius innerRadius [] []).1.length / 3 ∧
    (generateStar ops cx cy outerRadius innerRadius [] []).1.length / 3 = 9 := by
  rw [generateStar_vertices_length]
  rw [generateStar_indices] at hk
  simp only [List.nil_append, List.mem_cons, List.not_mem_nil, or_false] at hk
  omega

/-- Witness for C2: the index 8 is emitted and is in range. -/
theorem generateStar_indices_in_range_witness :
    8 ∈ (generateStar symbolic (.var "cx") (.var "cy") (.var "outer") (.var "inner") [] []).2 ∧
    (8 ≤ 8 ∧
      8 < (generateStar symbolic (.var "cx") (.var "cy") (.var "outer") (.var "inner")
            [] []).1.length / 3 ∧
      (generateStar symbolic (.var "cx") (.var "cy") (.var "outer") (.var "inner")
            [] []).1.length / 3 = 9) :=
  ⟨by rw [generateStar_indices]; simp,
   generateStar_indices_in_range symbolic _ _ _ _ 8 (by rw [generateStar_indices]; simp)⟩

/-- C3: the first vertex `generateStar` emits into an empty vertex sequence is
`(cx, cy, 0)`: the center coordinates are stored as given, with no arithmetic
applied to them. -/
theorem generateStar_center_vertex {F : Type} (ops : FloatOps F)
    (cx cy outerRadius innerRadius : F) :
    vertexAt (generateStar ops cx cy outerRadius innerRadius [] []).1 0 = [cx, cy, ops.lit 0] ∧
    (generateStar ops cx cy outerRadius innerRadius [] []).1.take 3 = [cx, cy, ops.lit 0] := by
  simp [generateStar, starStep, numPoints, List.range, List.range.loop, vertexAt, lit_zero]

/-- C5: the index sequence emitted into an empty index sequence is exactly the
fan `(0,1,2), (0,2,3), ..., (0,7,8)` followed by the closing triangle `(0,8,1)`:
one triangle `(0, i, i+1)` for each `i` from 1 to `numPoints - 1` in increasing
order, then `(0, numPoints, 1)`; it is the same for every arithmetic, center and
radii. -/
theorem generateStar_fan {F : Type} (ops : FloatOps F) (cx cy outerRadius innerRadius : F) :
    (generateStar ops cx cy outerRadius innerRadius [] []).2 =
      [0, 1, 2, 0, 2, 3, 0, 3, 4, 0, 4, 5, 0, 5, 6, 0, 6, 7, 0, 7, 8, 0, 8, 1] ∧
    (generateStar ops cx cy outerRadius innerRadius [] []).2 =
      ((List.range (numPoints - 1)).map (fun j => [0, j + 1, j + 2])).flatten
        ++ [0, numPoints, 1] ∧
    (∀ (G : Type) (ops2 : FloatOps G) (cx2 cy2 outer2 inner2 : G),
      (generateStar ops2 cx2 cy2 outer2 inner2 [] []).2 =
        (generateStar ops cx cy outerRadius innerRadius [] []).2) := by
  refine ⟨by rw [generateStar_indices]; rfl, by rw [generateStar_indices]; rfl, ?_⟩
  intro G ops2 cx2 cy2 outer2 inner2
  rw [generateStar_indices, generateStar_indices]

/-- C8, as the code has it: the triangle emitted inside the loop at
`i = numPoints - 1 = 7` is `(0, 7, 8)`; it is the seventh triangle of the
output, it references the indices 7 and 8, both of which are among the 9
generated vertices, and the index 9 is emitted nowhere. -/
theorem generateStar_last_loop_triangle {F : Type} (ops : FloatOps F)
    (cx cy outerRadius innerRadius : F) (b : Buffers F) :
    (starStep ops cx cy outerRadius innerRadius b (numPoints - 1)).2 = b.2 ++ [0, 7, 8] ∧
    triangleAt (generateStar ops cx cy outerRadius innerRadius [] []).2 6 = [0, 7, 8] ∧
    9 ∉ (generateStar ops cx cy outerRadius innerRadius [] []).2 ∧
    8 < (generateStar ops cx cy outerRadius innerRadius [] []).1.length / 3 := by
  rw [generateStar_vertices_length, generateStar_indices]
  refine ⟨by simp [starStep, numPoints], by simp [triangleAt], by simp, by omega⟩

/-- C8 refuted as stated: on the input `(cx, cy, outer, inner)` the loop body at
`i = 7` appends the triangle `(0, 7, 8)`, which does not contain the index 9,
and the seventh triangle of the whole output does not contain it either. -/
theorem generateStar_last_loop_triangle_counterexample :
    (starStep symbolic (.var "cx") (.var "cy") (.var "outer") (.var "inner") ([], []) 7).2
        = [0, 7, 8] ∧
    9 ∉ (starStep symbolic (.var "cx") (.var "cy") (.var "outer") (.var "inner") ([], []) 7).2 ∧
    9 ∉ triangleAt
      (generateStar symbolic (.var "cx") (.var "cy") (.var "outer") (.var "inner") [] []).2 6 := by
  rw [generateStar_indices]
  refine ⟨by simp [starStep], by simp [starStep], by simp [triangleAt]⟩

theorem cStr_empty : cStr "" = "" := by decide

/-- C6: for every shader source path that cannot be opened,
`loadShaderFromFile` returns the empty text and writes one diagnostic naming
the path to the error stream, and the constructor, given that path as vertex
path or as fragment path, still runs to its end.  Under every driver the calls
it makes are, in order: the four calls compiling the vertex stage on the object
`v` the driver returned for it, the four compiling the fragment stage on the
object `f` the driver returned for it (the unopened file contributing the empty
source), the creation of the program `p`, the attachment of `v` and `f` to `p`,
the link of `p` and its status check, and the deletion of `v` and of `f`; each
status check may be followed by one info-log read.  The object constructed holds
`p`, the diagnostic is in the error stream, and no error value is returned. -/
theorem shader_construct_missing_file (d : Driver) (fs : String → Option String)
    (w : World (List GLCall)) (path other : String) (hopen : fs path = none) :
    Shader.loadShaderFromFile fs w path =
      ("", { w with cerr := w.cerr ++ ["Failed to open shader file: " ++ path] }) ∧
    (∃ (v f p : Nat) (x2 x4 x9 : List GLCall) (rest : List String),
      v = d.handle (w.gl ++ [GLCall.glCreateShader GLenum.GL_VERTEX_SHADER]) ∧
      f = d.handle (w.gl ++ stageCalls GLenum.GL_VERTEX_SHADER v "" ++ x2
          ++ [GLCall.glCreateShader GLenum.GL_FRAGMENT_SHADER]) ∧
      p = d.handle (w.gl ++ stageCalls GLenum.GL_VERTEX_SHADER v "" ++ x2
          ++ stageCalls GLenum.GL_FRAGMENT_SHADER f (cStr ((fs other).getD "")) ++ x4
          ++ [GLCall.glCreateProgram]) ∧
      (x2 = [] ∨ x2 = [GLCall.glGetShaderInfoLog v 1024]) ∧
      (x4 = [] ∨ x4 = [GLCall.glGetShaderInfoLog f 1024]) ∧
      (x9 = [] ∨ x9 = [GLCall.glGetProgramInfoLog p 1024]) ∧
      (Shader.construct (recording d) fs w path other).2.gl =
        w.gl ++ stageCalls GLenum.GL_VERTEX_SHADER v "" ++ x2
          ++ stageCalls GLenum.GL_FRAGMENT_SHADER f (cStr ((fs other).getD "")) ++ x4
          ++ linkCalls p v f ++ x9
          ++ [GLCall.glDeleteShader v, GLCall.glDeleteShader f] ∧
      (Shader.construct (recording d) fs w path other).1.program = p ∧
      (Shader.construct (recording d) fs w path other).2.cerr = w.cerr ++ rest ∧
      rest.head? = some ("Failed to open shader file: " ++ path)) ∧
    (∃ (v f p : Nat) (x2 x4 x9 : List GLCall) (rest : List String),
      v = d.handle (w.gl ++ [GLCall.glCreateShader GLenum.GL_VERTEX_SHADER]) ∧
      f = d.handle (w.gl ++ stageCalls GLenum.GL_VERTEX_SHADER v
            (cStr ((fs other).getD "")) ++ x2
          ++ [GLCall.glCreateShader GLenum.GL_FRAGMENT_SHADER]) ∧
      p = d.handle (w.gl ++ stageCalls GLenum.GL_VERTEX_SHADER v
            (cStr ((fs other).getD "")) ++ x2
          ++ stageCalls GLenum.GL_FRAGMENT_SHADER f "" ++ x4
          ++ [GLCall.glCreateProgram]) ∧
      (x2 = [] ∨ x2 = [GLCall.glGetShaderInfoLog v 1024]) ∧
      (x4 = [] ∨ x4 = [GLCall.glGetShaderInfoLog f 1024]) ∧
      (x9 = [] ∨ x9 = [GLCall.glGetProgramInfoLog p 1024]) ∧
      (Shader.construct (recording d) fs w other path).2.gl =
        w.gl ++ stageCalls GLenum.GL_VERTEX_SHADER v (cStr ((fs other).getD "")) ++ x2
          ++ stageCalls GLenum.GL_FRAGMENT_SHADER f "" ++ x4
          ++ linkCalls p v f ++ x9
          ++ [GLCall.glDeleteShader v, GLCall.glDeleteShader f] ∧
      (Shader.construct (recording d) fs w other path).1.program = p ∧
      (Shader.construct (recording d) fs w other path).2.cerr = w.cerr ++ rest ∧
      "Failed to open shader file: " ++ path ∈ rest) := by
  refine ⟨?_, ?_, ?_⟩
  · unfold Shader.loadShaderFromFile
    rw [hopen]
  · obtain ⟨v, f, p, x2, x4, x9, rest, hv, hf, hp, h2, h4, h9, hgl, hprog, herr, hd, _⟩ :=
      construct_recording d fs w path other
    rw [hopen, Option.getD_none, cStr_empty] at hf hp hgl
    exact ⟨v, f, p, x2, x4, x9, rest, hv, hf, hp, h2, h4, h9, hgl, hprog, herr, hd hopen⟩
  · obtain ⟨v, f, p, x2, x4, x9, rest, hv, hf, hp, h2, h4, h9, hgl, hprog, herr, _, hd⟩ :=
      construct_recording d fs w other path
    rw [hopen, Option.getD_none, cStr_empty] at hp hgl
    exact ⟨v, f, p, x2, x4, x9, rest, hv, hf, hp, h2, h4, h9, hgl, hprog, herr, hd hopen⟩

/-- Witness for C6: no file can be opened and the driver fails every check.  The
stages are the objects 1 and 6, the program is the object 11. -/
theorem shader_construct_missing_file_witness :
    noFiles "vertex_shader.glsl" = none ∧
    (Shader.construct (recording failingDriver) noFiles ⟨[], []⟩
        "vertex_shader.glsl" "fragment_shader.glsl").1 = ⟨11⟩ ∧
    (Shader.construct (recording failingDriver) noFiles ⟨[], []⟩
        "vertex_shader.glsl" "fragment_shader.glsl").2.gl =
      [GLCall.glCreateShader GLenum.GL_VERTEX_SHADER, GLCall.glShaderSource 1 "",
       GLCall.glCompileShader 1, GLCall.glGetShaderiv 1 GLenum.GL_COMPILE_STATUS,
       GLCall.glGetShaderInfoLog 1 1024,
       GLCall.glCreateShader GLenum.GL_FRAGMENT_SHADER, GLCall.glShaderSource 6 "",
       GLCall.glCompileShader 6, GLCall.glGetShaderiv 6 GLenum.GL_COMPILE_STATUS,
       GLCall.glGetShaderInfoLog 6 1024,
       GLCall.glCreateProgram, GLCall.glAttachShader 11 1, GLCall.glAttachShader 11 6,
       GLCall.glLinkProgram 11, GLCall.glGetProgramiv 11 GLenum.GL_LINK_STATUS,
       GLCall.glGetProgramInfoLog 11 1024,
       GLCall.glDeleteShader 1, GLCall.glDeleteShader 6] ∧
    (Shader.construct (recording failingDriver) noFiles ⟨[], []⟩
        "vertex_shader.glsl" "fragment_shader.glsl").2.cerr.length = 5 ∧
    (Shader.loadShaderFromFile noFiles (⟨[], []⟩ : World (List GLCall)) "vertex_shader.glsl" =
      ("", ⟨[], ["Failed to open shader file: vertex_shader.glsl"]⟩)) :=
  ⟨rfl, by decide, by decide, by decide,
   (shader_construct_missing_file failingDriver noFiles ⟨[], []⟩
      "vertex_shader.glsl" "fragment_shader.glsl" rfl).1⟩

/-- C7, as the code has it: for every uniform name whose C string (the text
`name.c_str()` hands to the lookup, which ends at the first NUL character of
the name) is not in the linked layout of the program, `setUniform4f` leaves the
whole state of the graphics API unchanged, for every four values: the lookup
yields the location `-1`, the set on it is a no-op, the error flag is not
raised and every uniform of every program keeps its value. -/
theorem setUniform4f_missing_name {F : Type} (self : Shader) (st : GLState F)
    (name : String) (v0 v1 v2 v3 : F)
    (hname : ∀ u ∈ st.layout self.program, u.name ≠ cStr name) :
    (uniformModel.glGetUniformLocation st self.program (cStr name)).2 = -1 ∧
    Shader.setUniform4f uniformModel self st name v0 v1 v2 v3 = st ∧
    (Shader.setUniform4f uniformModel self st name v0 v1 v2 v3).error = st.error ∧
    (∀ p, (Shader.setUniform4f uniformModel self st name v0 v1 v2 v3).layout p =
      st.layout p) := by
  have hfind : (st.layout self.program).find? (fun u => u.name == cStr name) = none := by
    rw [List.find?_eq_none]
    intro u hu
    simpa using hname u hu
  have hloc : modelGetUniformLocation st self.program (cStr name) = -1 := by
    unfold modelGetUniformLocation
    rw [hfind]
  have hset : Shader.setUniform4f uniformModel self st name v0 v1 v2 v3 = st := by
    unfold Shader.setUniform4f
    simp [uniformModel, hloc, modelUniform4f]
  exact ⟨hloc, hset, by rw [hset], fun p => by rw [hset]⟩

/-- Witness for C7: the name `missing` on a program whose only uniform is
`ourColor`. -/
theorem setUniform4f_missing_name_witness :
    (∀ u ∈ oneUniformState.layout (Shader.mk 3).program, u.name ≠ cStr "missing") ∧
    Shader.setUniform4f uniformModel ⟨3⟩ oneUniformState "missing" 1 1 1 1 = oneUniformState :=
  ⟨by simp [oneUniformState, cStr],
   (setUniform4f_missing_name ⟨3⟩ oneUniformState "missing" 1 1 1 1
      (by simp [oneUniformState, cStr])).2.1⟩

/-- C7 refuted as stated: the name `ourColor`, NUL, `junk` is not in the layout
of program 3, whose only uniform is `ourColor`, yet `setUniform4f` on that name
overwrites the value of `ourColor`, because the lookup receives the C string
`ourColor`. -/
theorem setUniform4f_missing_name_counterexample :
    (∀ u ∈ oneUniformState.layout (Shader.mk 3).program, u.name ≠ "ourColor\x00junk") ∧
    (oneUniformState.layout 3).map (fun u => (u.name, u.value)) =
      [("ourColor", (0, 0, 0, 1))] ∧
    ((Shader.setUniform4f uniformModel ⟨3⟩ oneUniformState "ourColor\x00junk"
        1 1 1 1).layout 3).map (fun u => (u.name, u.value)) =
      [("ourColor", (1, 1, 1, 1))] := by
  have hc : cStr "ourColor\x00junk" = "ourColor" := by decide
  refine ⟨?_, ?_, ?_⟩
  · simp [oneUniformState]
  · simp [oneUniformState]
  · simp [Shader.setUniform4f, hc, uniformModel, modelGetUniformLocation, modelUniform4f,
      oneUniformState]

/-- The model does set a uniform that is present: after `setUniform4f` on
`ourColor` the layout of program 3 holds the new value. -/
theorem setUniform4f_present_example :
    ((Shader.setUniform4f uniformModel ⟨3⟩ oneUniformState "ourColor" 1 1 1 1).layout 3).map
        (fun u => u.value) = [(1, 1, 1, 1)] := by
  simp [Shader.setUniform4f, uniformModel, modelGetUniformLocation, modelUniform4f,
    oneUniformState, cStr]

end ComputerGrah
